import Mathlib

/-!
Verification of the TuringMachines identity-verification decision platform.

This file shallowly embeds the parts of the repository that the checked
properties are about:

* the pure risk computations of `turing-riskbrain` (score fusion with
  jurisdiction adjustments, risk-band derivation, jurisdiction-aware decision
  policies), and
* the orchestrator of `turing-orchestrate` (workflow store, append-only event
  ledger, the `risk_evaluate` / `override_applied` handlers, the decision
  authority `emit_decision_finalised`, the manual-decision route and the
  investigator decision queries).

Numeric constants that the Python source writes as float literals
(`0.35`, `1.2`, `0.6`, ...) are embedded as the exact rationals they denote;
every comparison the claims exercise is far from any rounding boundary.
Wall-clock timestamps (`datetime.utcnow`) are modelled by a logical clock:
each appended ledger row is stamped with the ledger index at append time,
which preserves the relative `created_at` order of successive appends, the
only aspect of time the source relies on.  `uuid.uuid4()` is modelled by a
fresh-name supply threaded through the state.
-/

namespace TM

/-! ## turing-riskbrain: pure risk computations -/

/-- Risk assessment levels, from `RiskLevel` in
`turing-riskbrain/turing_riskbrain.py`. -/
inductive RiskLevel
  | low
  | medium
  | high
  | critical
deriving DecidableEq, Repr

/-- The `.value` string of a `RiskLevel` member. -/
def RiskLevel.toStr : RiskLevel → String
  | .low => "low"
  | .medium => "medium"
  | .high => "high"
  | .critical => "critical"

/-- Risk-based decision outcomes, from `Decision` in
`turing-riskbrain/decision.py`. -/
inductive Decision
  | approve
  | review
  | decline
deriving DecidableEq, Repr

/-- An opaque JSON bag (dictionaries the embedded code stores but never
inspects: liveness blobs, signals, evidence hashes, model provenance). -/
abbrev Bag := List (String × String)

/-- The score dictionary handled by `ScoreFusion` in
`turing-riskbrain/fusion.py`: keys `fraud`, `aml`, `credit`, `liquidity`,
exactly as built by the module-level `fuse_scores` convenience function. -/
structure Scores where
  fraud : ℚ
  aml : ℚ
  credit : ℚ
  liquidity : ℚ
deriving DecidableEq, Repr

/-- Python's `str.upper()` restricted to the ASCII jurisdiction codes the
source compares against: upper-case every character. -/
def pyUpper (s : String) : String := ⟨s.data.map Char.toUpper⟩

/-- Embeds `ScoreFusion._apply_jurisdiction_adjustments`: EU/EUROPE scale `aml` by
1.2, AU/AUSTRALIA scale `credit` by 1.15, GCC/GULF scale `aml` by 1.25, each
capped at 1.0; the match is on `jurisdiction.upper()`. -/
def apply_jurisdiction_adjustments (scores : Scores) (jurisdiction : String) : Scores :=
  if pyUpper jurisdiction = "EU" ∨ pyUpper jurisdiction = "EUROPE" then
    { scores with aml := min (scores.aml * (12/10)) 1 }
  else if pyUpper jurisdiction = "AU" ∨ pyUpper jurisdiction = "AUSTRALIA" then
    { scores with credit := min (scores.credit * (115/100)) 1 }
  else if pyUpper jurisdiction = "GCC" ∨ pyUpper jurisdiction = "GULF" then
    { scores with aml := min (scores.aml * (125/100)) 1 }
  else scores

/-- Embeds `ScoreFusion.fuse_scores` with the default weights (fraud 0.35, aml 0.30,
credit 0.20, liquidity 0.15): adjust for the jurisdiction, take the weighted
sum over the four dimensions, clamp to [0, 1].  The source iterates over the
four dimension keys with `.get(dim, 0)`; the record always carries all four,
so the sum is written out directly. -/
def fuse_scores_method (scores : Scores) (jurisdiction : String) : ℚ :=
  let adjusted := apply_jurisdiction_adjustments scores jurisdiction
  let composite := adjusted.fraud * (35/100) + adjusted.aml * (30/100)
    + adjusted.credit * (20/100) + adjusted.liquidity * (15/100)
  min (max composite 0) 1

/-- Module-level `fuse_scores` convenience function of
`turing-riskbrain/fusion.py`. -/
def fuse_scores (fraud aml credit liquidity : ℚ) (jurisdiction : String) : ℚ :=
  fuse_scores_method { fraud := fraud, aml := aml, credit := credit, liquidity := liquidity }
    jurisdiction

/-- One jurisdiction entry of `DecisionEngine._default_policies` in
`turing-riskbrain/decision.py`. -/
structure Policy where
  fraud_threshold : ℚ
  aml_threshold : ℚ
  credit_threshold : ℚ
  liquidity_threshold : ℚ
deriving DecidableEq, Repr

/-- Embeds `DecisionEngine._default_policies`: a dict keyed by the lowercase strings
`"default"`, `"au"`, `"eu"`, `"gcc"`.  Each entry lists the fraud, aml,
credit and liquidity thresholds in that order. -/
def default_policies (key : String) : Option Policy :=
  if key = "default" then some ⟨7/10, 6/10, 65/100, 1/2⟩
  else if key = "au" then some ⟨7/10, 55/100, 6/10, 1/2⟩
  else if key = "eu" then some ⟨65/100, 1/2, 65/100, 45/100⟩
  else if key = "gcc" then some ⟨65/100, 45/100, 7/10, 1/2⟩
  else none

/-- The `"default"` entry, used as the fallback of
`self.policy_config.get(jurisdiction, self.policy_config["default"])`. -/
def defaultPolicy : Policy := ⟨7/10, 6/10, 65/100, 1/2⟩

/-- Embeds `DecisionEngine._apply_policies`: `critical` declines, `high` reviews,
`medium` reviews iff `assessment.get("aml_score", 0)` exceeds the policy's
`aml_threshold`, anything else approves.  The policy lookup
`policy_config.get(jurisdiction, policy_config["default"])` is an exact,
case-sensitive dict lookup. -/
def apply_policies (risk_level : String) (jurisdiction : String)
    (aml_score : Option ℚ) : Decision :=
  let policy := (default_policies jurisdiction).getD defaultPolicy
  if risk_level = "critical" then .decline
  else if risk_level = "high" then .review
  else if risk_level = "medium" then
    if aml_score.getD 0 > policy.aml_threshold then .review else .approve
  else .approve

/-- Embeds `TuringRiskBrain._determine_risk_level` in
`turing-riskbrain/turing_riskbrain.py`: average the four component scores,
then scan the thresholds 0.8 / 0.6 / 0.4 from the top. -/
def determine_risk_level (fraud aml credit liquidity : ℚ) : RiskLevel :=
  let avg_score := (fraud + aml + credit + liquidity) / 4
  if avg_score ≥ 8/10 then .critical
  else if avg_score ≥ 6/10 then .high
  else if avg_score ≥ 4/10 then .medium
  else .low

/-- Embeds `determine_risk_band` in `turing-riskbrain/main.py`: band of an overall
risk score on the service's 0-100 scale, breakpoints 30 / 60 / 85. -/
def determine_risk_band (risk_score : ℚ) : String :=
  if risk_score < 30 then "low"
  else if risk_score < 60 then "medium"
  else if risk_score < 85 then "high"
  else "critical"

/-! Spec-side definitions for the riskbrain claims.  These follow the words of
the spec and of the claims, to be compared with the definitions above that
follow the source. -/

/-- The claim's band map: closed-open intervals on the composite,
low [0, 0.40), medium [0.40, 0.60), high [0.60, 0.80), critical [0.80, 1]. -/
def band_claim (composite : ℚ) : String :=
  if composite < 4/10 then "low"
  else if composite < 6/10 then "medium"
  else if composite < 8/10 then "high"
  else "critical"

/-- The claim's AML thresholds: default 0.60, AU 0.55, EU 0.50, GCC 0.45,
keyed by the jurisdiction codes the claim quotes. -/
def aml_threshold_claim (jurisdiction : String) : ℚ :=
  if jurisdiction = "AU" then 55/100
  else if jurisdiction = "EU" then 1/2
  else if jurisdiction = "GCC" then 45/100
  else 6/10

/-- The claim's decision recommendation: critical declines, high reviews, low
approves, medium reviews iff the AML score exceeds the jurisdiction's
threshold per `aml_threshold_claim`. -/
def recommend_claim (band jurisdiction : String) (aml : ℚ) : Decision :=
  if band = "critical" then .decline
  else if band = "high" then .review
  else if band = "low" then .approve
  else if aml > aml_threshold_claim jurisdiction then .review
  else .approve

/-- Amended AML thresholds: the source keys its policy table by the lowercase
codes `"au"`, `"eu"`, `"gcc"`; every other jurisdiction string (including the
uppercase `"EU"` of the claim) falls back to the default threshold 0.60. -/
def aml_threshold_amended (jurisdiction : String) : ℚ :=
  if jurisdiction = "au" then 55/100
  else if jurisdiction = "eu" then 1/2
  else if jurisdiction = "gcc" then 45/100
  else 6/10

/-- Amended decision recommendation, differing from `recommend_claim` only in
using the lowercase-keyed thresholds. -/
def recommend_amended (band jurisdiction : String) (aml : ℚ) : Decision :=
  if band = "critical" then .decline
  else if band = "high" then .review
  else if band = "low" then .approve
  else if aml > aml_threshold_amended jurisdiction then .review
  else .approve

/-- The claim's jurisdiction adjustment: exact matches on the codes `"EU"`,
`"AU"`, `"GCC"`; any other jurisdiction is unchanged. -/
def adjust_claim (scores : Scores) (jurisdiction : String) : Scores :=
  if jurisdiction = "EU" then { scores with aml := min (scores.aml * (12/10)) 1 }
  else if jurisdiction = "AU" then { scores with credit := min (scores.credit * (115/100)) 1 }
  else if jurisdiction = "GCC" then { scores with aml := min (scores.aml * (125/100)) 1 }
  else scores

/-- The claim's fusion: adjust, then the weighted sum with the default
weights, clamped to [0, 1]. -/
def fuse_claim (scores : Scores) (jurisdiction : String) : ℚ :=
  let a := adjust_claim scores jurisdiction
  min (max (a.fraud * (35/100) + a.aml * (30/100) + a.credit * (20/100)
    + a.liquidity * (15/100)) 0) 1

/-- Amended jurisdiction adjustment: as the claim, but the match is on the
upper-cased jurisdiction and the aliases `EUROPE`, `AUSTRALIA` and `GULF` are
adjusted too. -/
def adjust_amended (scores : Scores) (jurisdiction : String) : Scores :=
  if pyUpper jurisdiction = "EU" ∨ pyUpper jurisdiction = "EUROPE" then
    { scores with aml := min (scores.aml * (12/10)) 1 }
  else if pyUpper jurisdiction = "AU" ∨ pyUpper jurisdiction = "AUSTRALIA" then
    { scores with credit := min (scores.credit * (115/100)) 1 }
  else if pyUpper jurisdiction = "GCC" ∨ pyUpper jurisdiction = "GULF" then
    { scores with aml := min (scores.aml * (125/100)) 1 }
  else scores

/-- Amended fusion: adjust per `adjust_amended`, weighted sum, clamp. -/
def fuse_amended (scores : Scores) (jurisdiction : String) : ℚ :=
  let a := adjust_amended scores jurisdiction
  min (max (a.fraud * (35/100) + a.aml * (30/100) + a.credit * (20/100)
    + a.liquidity * (15/100)) 0) 1

/-! ## turing-orchestrate: data model

Embeds `turing-orchestrate/models.py` and the dynamic dictionaries flowing
through `workflow_service.py`.  Python dicts are embedded as records whose
fields are exactly the keys the embedded code reads or writes; a field of
type `Option _` distinguishes a present key (`some`) from an absent one
(`none`), so `d.get(k, v)` becomes `(d.k).getD v` and `d[k]` on an absent key
is a `KeyError`. -/

/-- The parsed JSON response of the risk service as consumed by
`handle_risk_evaluation` and `emit_decision_finalised`, or the degraded
dictionary returned by `call_riskbrain` on any transport/HTTP error.  The
`final_risk` field is `some` exactly when the key is present
(`"final_risk" in risk_result`). -/
structure RiskRecommendation where
  recommendation : Option String
  requires_human : Option Bool
deriving DecidableEq, Repr

/-- The `final_risk` sub-dictionary: `{score, band}`. -/
structure FinalRisk where
  score : Option ℚ
  band : Option String
deriving DecidableEq, Repr

/-- A risk-service response dictionary (success or degraded). -/
structure RiskResult where
  final_risk : Option FinalRisk
  decision : Option RiskRecommendation
  confidence : Option ℚ
  jurisdiction : Option String
  policy_version : Option String
  fraud_score : Option ℚ
  aml_score : Option ℚ
  credit_score : Option ℚ
  liquidity_score : Option ℚ
  factors : Option (List String)
  models : Option Bag
  error : Option String
  exception : Option String
deriving DecidableEq, Repr

/-- The degraded result `call_riskbrain` returns when the risk service is
unreachable, times out or answers non-2xx: `{error, exception}` only. -/
def degradedResult (exc : String) : RiskResult :=
  { final_risk := none, decision := none, confidence := none,
    jurisdiction := none, policy_version := none, fraud_score := none,
    aml_score := none, credit_score := none, liquidity_score := none,
    factors := none, models := none,
    error := some "riskbrain_unavailable", exception := some exc }

/-- The free-form `data` JSON column of `IdentityWorkflow`, restricted to the
keys the embedded handlers read or write.  Nested dictionaries such as
`data["selfie"]["liveness"]` are flattened to one field per leaf the code
touches. -/
structure WfData where
  user_id : Option String
  action : Option String
  evidence_hashes : Option Bag
  jurisdiction : Option String
  selfie_liveness : Option Bag
  id_document_metadata : Option Bag
  match_raw : Option Bag
  match_fused_score : Option ℚ
  match_is_match : Option Bool
  risk_error : Option RiskResult
  risk_result : Option RiskResult
deriving DecidableEq, Repr

/-- The empty `data` bag. -/
def WfData.empty : WfData :=
  { user_id := none, action := none, evidence_hashes := none,
    jurisdiction := none, selfie_liveness := none,
    id_document_metadata := none, match_raw := none,
    match_fused_score := none, match_is_match := none,
    risk_error := none, risk_result := none }

/-- The `identity_workflow` row (`IdentityWorkflow` in models.py). -/
structure IdentityWorkflow where
  id : String
  tenant_id : String
  state : String
  selfie_session_id : Option String
  id_session_id : Option String
  risk_score : Option ℚ
  risk_band : Option String
  decision : Option String
  requires_human : Bool
  data : WfData
  created_at : ℕ
  updated_at : ℕ
deriving DecidableEq, Repr

/-- The `subject` sub-dictionary of a `decision.finalised` payload. -/
structure SubjectInfo where
  subject_type : String
  subject_id : Option String
  action : String
deriving DecidableEq, Repr

/-- The `decision` sub-dictionary of a `decision.finalised` payload. -/
structure DecisionInfo where
  outcome : Option String
  confidence : ℚ
  requires_human : Bool
  can_proceed : Bool
deriving DecidableEq, Repr

/-- The `policy` sub-dictionary of a `decision.finalised` payload. -/
structure PolicyInfo where
  jurisdiction : String
  policy_pack : String
  policy_version : String
deriving DecidableEq, Repr

/-- The `risk_summary.scores` sub-dictionary of a `decision.finalised` payload. -/
structure ScoresInfo where
  fraud : Option ℚ
  aml : Option ℚ
  credit : Option ℚ
  liquidity : Option ℚ
deriving DecidableEq, Repr

/-- The `risk_summary` sub-dictionary of a `decision.finalised` payload. -/
structure RiskSummaryInfo where
  overall_risk : Option String
  risk_score : Option ℚ
  scores : ScoresInfo
deriving DecidableEq, Repr

/-- The `lineage` sub-dictionary of a `decision.finalised` payload. -/
structure LineageInfo where
  supersedes_decision_id : Option String
  overridden_by : Option String
  override_reason : Option String
  override_timestamp : Option ℕ
deriving DecidableEq, Repr

/-- The `authority` sub-dictionary of a `decision.finalised` payload.  The
risk-path payload built by `emit_decision_finalised` carries no `override`
key (`override := none`); the override-path payload would carry
`override := some true`. -/
structure AuthorityInfo where
  decided_by : String
  service_version : String
  override : Option Bool
deriving DecidableEq, Repr

/-- The `decision.finalised` event payload dictionary, as constructed in
`emit_decision_finalised` (workflow_service.py lines 58-112). -/
structure DecisionPayload where
  event_id : String
  event_type : String
  timestamp : ℕ
  decision_id : String
  correlation_id : String
  tenant_id : String
  subject : SubjectInfo
  decision : DecisionInfo
  policy : PolicyInfo
  risk_summary : RiskSummaryInfo
  reason_codes : List String
  models : Bag
  evidence : Bag
  lineage : LineageInfo
  authority : AuthorityInfo
deriving DecidableEq, Repr

/-- The one inbound-event payload dictionary, the union of the keys every
handler reads (payload dicts are untyped in the source; each handler projects
its own fields).  `matchFlag` embeds the `match` key, which is a reserved
word in Lean. -/
structure Payload where
  tenant_id : Option String
  workflow_id : Option String
  session_id : Option String
  id_session_id : Option String
  selfie_session_id : Option String
  liveness : Option Bag
  document_metadata : Option Bag
  matchFlag : Option Bool
  fused_score : Option ℚ
  raw : Option Bag
  signals : Option Bag
  decision : Option String
  reason : Option String
  overridden_by : Option String
deriving DecidableEq, Repr

/-- The all-absent payload. -/
def Payload.empty : Payload :=
  { tenant_id := none, workflow_id := none, session_id := none,
    id_session_id := none, selfie_session_id := none, liveness := none,
    document_metadata := none, matchFlag := none, fused_score := none,
    raw := none, signals := none, decision := none, overridden_by := none,
    reason := none }

/-- Payload column of an `identity_workflow_event` row: either a
`decision.finalised` payload, the `{signals, result}` record appended by the
risk handler, or a copy of the inbound payload appended by the other
handlers. -/
inductive EventPayload
  | decision (p : DecisionPayload)
  | riskEvaluated (signals : Bag) (result : RiskResult)
  | inbound (p : Payload)
deriving DecidableEq, Repr

/-- The `identity_workflow_event` row (`WorkflowEvent` in models.py).  Note
the model declares the JSON column under the attribute name `payload`; it has
no attribute named `data`. -/
structure WorkflowEvent where
  id : String
  workflow_id : String
  tenant_id : String
  event_type : String
  payload : EventPayload
  created_at : ℕ
deriving DecidableEq, Repr

/-- A Python exception escaping a handler. -/
inductive PyErr
  | keyError (key : String)
  | valueError (msg : String)
  | attributeError (msg : String)
  | typeError (msg : String)
deriving DecidableEq, Repr

/-- An HTTP-level failure of a FastAPI route: either a raised
`HTTPException` or an unhandled Python exception (surfaced as a 500). -/
inductive HttpErr
  | http (status : ℕ) (detail : String)
  | pyError (e : PyErr)
deriving DecidableEq, Repr

/-- The persistent store: the workflow table (keyed by primary key `id`), the
append-only event ledger (in insertion order), and the fresh-name supply
standing for `uuid.uuid4()`. -/
structure Sys where
  workflows : String → Option IdentityWorkflow
  events : List WorkflowEvent
  uuidSeed : ℕ

/-- The empty store. -/
def Sys.init : Sys := { workflows := fun _ => none, events := [], uuidSeed := 0 }

/-- A fresh symbolic uuid. -/
def mkUuid (n : ℕ) : String := "uuid-" ++ toString n

/-- The `decision.finalised` event type tag. -/
def decisionEventType : String := "decision.finalised"

/-- Embeds `append_event` (workflow_service.py lines 24-37): adds one ledger row with
a fresh uuid id; `created_at` is the insertion clock (the ledger index). -/
def append_event (sys : Sys) (wf : IdentityWorkflow) (event_type : String)
    (payload : EventPayload) : Sys :=
  let row : WorkflowEvent :=
    { id := mkUuid sys.uuidSeed, workflow_id := wf.id,
      tenant_id := wf.tenant_id, event_type := event_type, payload := payload,
      created_at := sys.events.length }
  { sys with events := sys.events ++ [row], uuidSeed := sys.uuidSeed + 1 }

/-- Upsert of a workflow row at its primary key, standing for the flush of
the mutated ORM object when the enclosing transaction commits. -/
def Sys.save (sys : Sys) (wf : IdentityWorkflow) : Sys :=
  { sys with workflows := fun k => if k = wf.id then some wf else sys.workflows k }

/-- The fresh workflow row `get_or_create_workflow` creates when the key is
absent: `state = "pending"`, empty `data`, current timestamps. -/
def freshWorkflow (sys : Sys) (workflow_id tenant_id : String) : IdentityWorkflow :=
  { id := workflow_id, tenant_id := tenant_id, state := "pending",
    selfie_session_id := none, id_session_id := none, risk_score := none,
    risk_band := none, decision := none, requires_human := false,
    data := WfData.empty, created_at := sys.events.length,
    updated_at := sys.events.length }

/-- Embeds `get_or_create_workflow` (workflow_service.py lines 123-140). -/
def get_or_create_workflow (sys : Sys) (workflow_id tenant_id : String) :
    IdentityWorkflow × Sys :=
  match sys.workflows workflow_id with
  | some wf => (wf, sys)
  | none =>
    (freshWorkflow sys workflow_id tenant_id,
     sys.save (freshWorkflow sys workflow_id tenant_id))

/-! ## turing-orchestrate: decision authority and handlers

Each Python handler opens a transaction, mutates the workflow row, appends
ledger rows and commits; an exception aborts the transaction with no partial
writes.  A handler is therefore embedded as a function into
`Except PyErr Sys`: `.ok` is the committed store, `.error` leaves the store
untouched.  `call_riskbrain` is an outbound HTTP call; its response (parsed
JSON on 2xx, the degraded dictionary otherwise) enters the embedding as the
explicit `risk_result` argument of `handle_risk_evaluation`. -/

/-- Python's `a or b` for an optional string `a` (an absent key and the empty
string are both falsy). -/
def pyOrStr (a : Option String) (b : String) : String :=
  match a with
  | some s => if s = "" then b else s
  | none => b

/-- Embeds `emit_decision_finalised` (workflow_service.py lines 41-121), the
Decision Authority, is embedded by the next three definitions: it builds the
`decision.finalised` payload (`emitPayload`) from the (already mutated)
workflow row and the risk result, and appends it to the ledger.
`decision_id` is the deterministic string `"dec_" ++ wf.id`; `event_id` and
the `correlation_id` fallback (`emitCorr`, Python `correlation_id or
f"corr_..."`, where an absent key and the empty string are falsy) consume
fresh uuids. -/
def emitCorr (afterEventId : ℕ) (correlation_id : Option String) : String × ℕ :=
  match correlation_id with
  | some c => if c = "" then ("corr_" ++ mkUuid afterEventId, afterEventId + 1)
      else (c, afterEventId)
  | none => ("corr_" ++ mkUuid afterEventId, afterEventId + 1)

/-- The `decision.finalised` payload dictionary built by
`emit_decision_finalised` from the mutated workflow row and the risk
result. -/
def emitPayload (sys : Sys) (wf : IdentityWorkflow)
    (risk_result : RiskResult) (correlation_id : Option String) : DecisionPayload :=
  let corrAndSeed := emitCorr (sys.uuidSeed + 1) correlation_id
  { event_id := "evt_decision_" ++ mkUuid sys.uuidSeed,
      event_type := decisionEventType,
      timestamp := sys.events.length,
      decision_id := "dec_" ++ wf.id,
      correlation_id := corrAndSeed.1,
      tenant_id := wf.tenant_id,
      subject :=
        { subject_type := "user", subject_id := wf.data.user_id,
          action := wf.data.action.getD "onboarding" },
      decision :=
        { outcome := wf.decision,
          confidence := risk_result.confidence.getD 0,
          requires_human := wf.requires_human,
          can_proceed := wf.decision == some "approve" || wf.decision == some "review" },
      policy :=
        { jurisdiction := risk_result.jurisdiction.getD "AU",
          policy_pack := "au-core",
          policy_version := risk_result.policy_version.getD "1.0.0" },
      risk_summary :=
        { overall_risk := risk_result.final_risk.bind (fun fr => fr.band),
          risk_score := wf.risk_score,
          scores :=
            { fraud := risk_result.fraud_score, aml := risk_result.aml_score,
              credit := risk_result.credit_score,
              liquidity := risk_result.liquidity_score } },
      reason_codes := risk_result.factors.getD [],
      models := risk_result.models.getD [],
      evidence := wf.data.evidence_hashes.getD [],
      lineage :=
        { supersedes_decision_id := none, overridden_by := none,
          override_reason := none, override_timestamp := none },
      authority :=
        { decided_by := "turing_orchestrate", service_version := "1.0.0",
          override := none } }

def emit_decision_finalised (sys : Sys) (wf : IdentityWorkflow)
    (risk_result : RiskResult) (correlation_id : Option String) : Sys :=
  append_event { sys with uuidSeed := (emitCorr (sys.uuidSeed + 1) correlation_id).2 }
    wf decisionEventType (.decision (emitPayload sys wf risk_result correlation_id))

/-- The ledger row `emit_decision_finalised` appends. -/
def emitRow (sys : Sys) (wf : IdentityWorkflow) (risk_result : RiskResult)
    (correlation_id : Option String) : WorkflowEvent :=
  { id := mkUuid (emitCorr (sys.uuidSeed + 1) correlation_id).2,
    workflow_id := wf.id, tenant_id := wf.tenant_id,
    event_type := decisionEventType,
    payload := .decision (emitPayload sys wf risk_result correlation_id),
    created_at := sys.events.length }

/-- Embeds `handle_risk_evaluation` (workflow_service.py lines 248-293):
`p["tenant_id"]` and `p["workflow_id"]` raise `KeyError` when absent; the
handler then upserts the workflow, branches on `"final_risk" in risk_result`
(success mutations vs. the degraded `risk_failed` branch with
`data.setdefault("risk_error", risk_result)`), always stores
`data["risk_result"]`, always calls `emit_decision_finalised`, and appends
the `risk_evaluated` audit event — all in one transaction.
The mutation of the workflow row (success branch on `"final_risk" in
risk_result` vs. the degraded branch) is factored into `riskMutate`. -/
def riskMutate (wf : IdentityWorkflow) (risk_result : RiskResult)
    (clock : ℕ) : IdentityWorkflow :=
  let wf1 :=
    match risk_result.final_risk with
    | some fr =>
      let decision := risk_result.decision.getD ⟨none, none⟩
      { wf with
        risk_score := fr.score, risk_band := fr.band,
        decision := decision.recommendation,
        requires_human := (decision.requires_human).getD false,
        state := "risk_evaluated" }
    | none =>
      { wf with
        data := { wf.data with
          risk_error := some (wf.data.risk_error.getD risk_result) },
        state := "risk_failed" }
  { wf1 with
    data := { wf1.data with risk_result := some risk_result },
    updated_at := clock }

def handle_risk_evaluation (p : Payload) (correlation_id : Option String)
    (risk_result : RiskResult) (sys : Sys) : Except PyErr Sys :=
  match p.tenant_id with
  | none => .error (.keyError "tenant_id")
  | some tenant_id =>
  match p.workflow_id with
  | none => .error (.keyError "workflow_id")
  | some workflow_id =>
    let signals := p.signals.getD []
    let wfSys := get_or_create_workflow sys workflow_id tenant_id
    let wf2 := riskMutate wfSys.1 risk_result wfSys.2.events.length
    let sys2 := wfSys.2.save wf2
    let sys3 := emit_decision_finalised sys2 wf2 risk_result correlation_id
    .ok (append_event sys3 wf2 "risk_evaluated"
      (.riskEvaluated signals risk_result))

/-- Embeds `handle_selfie_uploaded` (workflow_service.py lines 161-185):
`workflow_id = payload.get("workflow_id") or payload["session_id"]` and
`selfie_session_id = payload["session_id"]`, so an absent `session_id` is a
`KeyError` on every path through those two lines. -/
def handle_selfie_uploaded (p : Payload) (sys : Sys) : Except PyErr Sys :=
  match p.tenant_id with
  | none => .error (.keyError "tenant_id")
  | some tenant_id =>
  match p.session_id with
  | none => .error (.keyError "session_id")
  | some session_id =>
    let workflow_id := pyOrStr p.workflow_id session_id
    let wfSys := get_or_create_workflow sys workflow_id tenant_id
    let wf := wfSys.1
    let sys1 := wfSys.2
    let wf1 := { wf with
      selfie_session_id := some session_id,
      state := "selfie_uploaded",
      data := { wf.data with selfie_liveness := some (p.liveness.getD []) },
      updated_at := sys1.events.length }
    let sys2 := sys1.save wf1
    .ok (append_event sys2 wf1 "selfie_uploaded" (.inbound p))

/-- Embeds `handle_id_uploaded` (workflow_service.py lines 188-210). -/
def handle_id_uploaded (p : Payload) (sys : Sys) : Except PyErr Sys :=
  match p.tenant_id with
  | none => .error (.keyError "tenant_id")
  | some tenant_id =>
  match p.workflow_id with
  | none => .error (.keyError "workflow_id")
  | some workflow_id =>
  match p.id_session_id with
  | none => .error (.keyError "id_session_id")
  | some id_session_id =>
    let wfSys := get_or_create_workflow sys workflow_id tenant_id
    let wf := wfSys.1
    let sys1 := wfSys.2
    let wf1 := { wf with
      id_session_id := some id_session_id,
      state := "id_uploaded",
      data := { wf.data with
        id_document_metadata := some (p.document_metadata.getD []) },
      updated_at := sys1.events.length }
    let sys2 := sys1.save wf1
    .ok (append_event sys2 wf1 "id_uploaded" (.inbound p))

/-- Embeds `handle_match_completed` (workflow_service.py lines 213-245). -/
def handle_match_completed (p : Payload) (sys : Sys) : Except PyErr Sys :=
  match p.tenant_id with
  | none => .error (.keyError "tenant_id")
  | some tenant_id =>
  match p.workflow_id with
  | none => .error (.keyError "workflow_id")
  | some workflow_id =>
  match p.matchFlag with
  | none => .error (.keyError "match")
  | some isMatch =>
    let wfSys := get_or_create_workflow sys workflow_id tenant_id
    let wf := wfSys.1
    let sys1 := wfSys.2
    let wf1 := { wf with
      selfie_session_id :=
        match p.selfie_session_id with
        | some v => some v
        | none => wf.selfie_session_id,
      id_session_id :=
        match p.id_session_id with
        | some v => some v
        | none => wf.id_session_id,
      data := { wf.data with
        match_raw := some (p.raw.getD []),
        match_fused_score := p.fused_score,
        match_is_match := some isMatch },
      state := if isMatch then "match_verified" else "match_failed",
      updated_at := sys1.events.length }
    let sys2 := sys1.save wf1
    .ok (append_event sys2 wf1 "match_completed" (.inbound p))

/-- The `decision.finalised` rows of a workflow, ordered ascending by
`created_at` (the ledger is in insertion order and `created_at` is the
insertion clock, so the filtered sub-list is already in that order; see
`events_created_at_indexed`). -/
def decisionEvents (sys : Sys) (workflow_id : String) : List WorkflowEvent :=
  sys.events.filter
    (fun e => e.workflow_id == workflow_id && e.event_type == decisionEventType)

/-- Embeds `handle_override_applied` (workflow_service.py lines 297-430).  After the
three validations (falsy `workflow_id`, workflow lookup, earliest prior
`decision.finalised`) the source reads `original_decision.data` (line 338),
but the `WorkflowEvent` model of models.py declares the JSON column under
the attribute name `payload` and has no attribute `data`, so the access
raises `AttributeError` before any row is mutated or appended; lines
341-430 (the lineage payload, the new `decision.finalised` append, the
`override.applied` audit append and the commit) are unreachable. -/
def handle_override_applied (p : Payload) (correlation_id : Option String)
    (sys : Sys) : Except PyErr Sys :=
  match p.workflow_id with
  | none => .error (.valueError "workflow_id is required for override.applied")
  | some workflow_id =>
    if workflow_id = "" then
      .error (.valueError "workflow_id is required for override.applied")
    else
      match sys.workflows workflow_id with
      | none => .error (.valueError ("Workflow " ++ workflow_id ++ " not found"))
      | some _wf =>
        match (decisionEvents sys workflow_id).head? with
        | none => .error (.valueError
            ("No original decision found for workflow " ++ workflow_id))
        | some _original_decision =>
          .error (.attributeError
            "WorkflowEvent object has no attribute data")

/-- Embeds `apply_manual_decision` (routers/workflows.py lines 78-114).  After the
workflow lookup the source constructs
`ManualDecision(..., decided_by="manual_reviewer", decided_at=...)` (line
97), but the `ManualDecision` model of models.py declares `actor` and
`created_at` — not `decided_by` or `decided_at` — so the constructor raises
`TypeError` before `wf.decision` is assigned (line 108); the cache update,
the `manual_decision_applied` state write and the commit are unreachable. -/
def apply_manual_decision (workflow_id : String) (decision : String)
    (reason : Option String) (sys : Sys) : Except HttpErr (Sys × String) :=
  match sys.workflows workflow_id with
  | none => .error (.http 404 "workflow not found")
  | some _wf =>
      .error (.pyError (.typeError
        "invalid keyword argument for ManualDecision"))

/-- Response of `dispatch_event`. -/
inductive DispatchResult
  | okProcessed (event_type : String)
  | ignored (reason : String)
deriving DecidableEq, Repr

/-- Embeds `dispatch_event` (workflow_service.py lines 443-454): look the `event`
string up in `EVENT_HANDLERS` and run the handler; unknown (or absent) types
are ignored without touching the store.  `risk_result` is the response of
`call_riskbrain` for this event, used only on the `risk_evaluate` path. -/
def dispatch_event (event : Option String) (p : Payload)
    (correlation_id : Option String) (risk_result : RiskResult) (sys : Sys) :
    Except PyErr (Sys × DispatchResult) :=
  match event with
  | some "selfie_uploaded" =>
    (handle_selfie_uploaded p sys).map (fun s => (s, .okProcessed "selfie_uploaded"))
  | some "id_uploaded" =>
    (handle_id_uploaded p sys).map (fun s => (s, .okProcessed "id_uploaded"))
  | some "match_completed" =>
    (handle_match_completed p sys).map (fun s => (s, .okProcessed "match_completed"))
  | some "risk_evaluate" =>
    (handle_risk_evaluation p correlation_id risk_result sys).map
      (fun s => (s, .okProcessed "risk_evaluate"))
  | some "override_applied" =>
    (handle_override_applied p correlation_id sys).map
      (fun s => (s, .okProcessed "override_applied"))
  | t => .ok (sys, .ignored ("unknown_event_type:" ++ t.getD "None"))

/-- Embeds `get_decision_timeline` (routers/investigator/decisions.py lines 31-101):
404 when the workflow has no `decision.finalised` events; otherwise the
timeline loop reads `e.data` on each row (line 67) and raises
`AttributeError` (the model attribute is `payload`), so no timeline value is
ever produced. -/
def get_decision_timeline (workflow_id : String) (sys : Sys) :
    Except HttpErr Unit :=
  let events := decisionEvents sys workflow_id
  if events.isEmpty then
    .error (.http 404 ("No decisions found for workflow " ++ workflow_id))
  else
    .error (.pyError (.attributeError
      "WorkflowEvent object has no attribute data"))

/-- Embeds `get_current_decision` (routers/investigator/decisions.py lines 104-144):
the query orders descending and takes the first row, i.e. the last element
of the ascending list; 404 when there is none, otherwise the endpoint reads
`latest_event.data` (line 128) and raises `AttributeError`. -/
def get_current_decision (workflow_id : String) (sys : Sys) :
    Except HttpErr Unit :=
  match (decisionEvents sys workflow_id).getLast? with
  | none => .error (.http 404 ("No decision found for workflow " ++ workflow_id))
  | some _latest =>
    .error (.pyError (.attributeError
      "WorkflowEvent object has no attribute data"))

/-! ## Request-level semantics -/

/-- One inbound POST /event, after ingress normalisation: the (normalised)
event-type string, the payload dictionary, the optional correlation id, and
the response the risk service would give for this event. -/
structure Inbound where
  event : Option String
  payload : Payload
  correlation_id : Option String
  risk_result : RiskResult

/-- One request against the orchestrator that can touch the store: an event
through the dispatcher, or a POST to the manual-decision route. -/
inductive Request
  | event (e : Inbound)
  | manualDecision (workflow_id : String) (decision : String) (reason : Option String)

/-- Execute one request: a raised exception aborts the enclosing transaction,
leaving the store unchanged. -/
def stepRequest (sys : Sys) (r : Request) : Sys :=
  match r with
  | .event e =>
    match dispatch_event e.event e.payload e.correlation_id e.risk_result sys with
    | .ok result => result.1
    | .error _ => sys
  | .manualDecision wid d reason =>
    match apply_manual_decision wid d reason sys with
    | .ok result => result.1
    | .error _ => sys

/-- Execute a sequence of requests from a given store. -/
def runRequests (sys : Sys) (rs : List Request) : Sys := rs.foldl stepRequest sys

/-- Outcome recorded in a ledger row, when the row is a `decision.finalised`
event. -/
def WorkflowEvent.decisionOutcome (e : WorkflowEvent) : Option String :=
  match e.payload with
  | .decision p => p.decision.outcome
  | _ => none

/-- The `decision_id` recorded in a ledger row, when the row is a
`decision.finalised` event. -/
def WorkflowEvent.decisionId (e : WorkflowEvent) : Option String :=
  match e.payload with
  | .decision p => some p.decision_id
  | _ => none

/-- The outcome of the latest (by `created_at`) `decision.finalised` event of
a workflow, `none` when there is none. -/
def ledgerDecision (sys : Sys) (workflow_id : String) : Option String :=
  (decisionEvents sys workflow_id).getLast?.bind WorkflowEvent.decisionOutcome

/-- The workflow table is keyed by the row's primary key.  This holds for
every store reachable from `Sys.init` and mirrors `session.get(cls, id)`
semantics of the real database. -/
def KeysOk (sys : Sys) : Prop :=
  ∀ wid wf, sys.workflows wid = some wf → wf.id = wid

/-- Workflows absent from the table have no `decision.finalised` events
(rows are only ever appended on behalf of an upserted workflow). -/
def NoOrphans (sys : Sys) : Prop :=
  ∀ wid, sys.workflows wid = none → decisionEvents sys wid = []

/-- Cache coherence: every workflow row's mutable `decision` field equals the
outcome of its latest `decision.finalised` event (`none` on both sides for a
workflow that has no decision yet). -/
def Coherent (sys : Sys) : Prop :=
  ∀ wid wf, sys.workflows wid = some wf → wf.decision = ledgerDecision sys wid

/-- The `created_at` of the i-th ledger row is i: the ledger is sorted by
`created_at`, so list order is `created_at` order. -/
def EventsIndexed (sys : Sys) : Prop :=
  ∀ i (h : i < sys.events.length), (sys.events.get ⟨i, h⟩).created_at = i

/-- The reachable-state invariant used for the coherence claim. -/
def Inv (sys : Sys) : Prop :=
  KeysOk sys ∧ NoOrphans sys ∧ Coherent sys ∧ EventsIndexed sys

/-! ## Concrete scenarios

Closed inputs used by the counterexamples and witnesses. -/

/-- A successful risk response (scenario 1 of the spec: AU, low risk,
approve). -/
def okRiskResult : RiskResult :=
  { final_risk := some { score := some (12/100), band := some "low" },
    decision := some { recommendation := some "approve", requires_human := some false },
    confidence := some (95/100), jurisdiction := some "AU",
    policy_version := none, fraud_score := none, aml_score := none,
    credit_score := none, liquidity_score := none, factors := none,
    models := none, error := none, exception := none }

/-- A well-formed `risk_evaluate` payload for the given workflow. -/
def riskPayload (wid : String) : Payload :=
  { Payload.empty with
    tenant_id := some "T", workflow_id := some wid, signals := some [] }

/-- A `risk_evaluate` request for the given workflow whose risk call answers
`okRiskResult`. -/
def riskRequest (wid : String) : Request :=
  .event ⟨some "risk_evaluate", riskPayload wid, none, okRiskResult⟩

/-- The store after one successful risk evaluation of workflow `"W3"`:
workflow in state `risk_evaluated` with one `decision.finalised` event. -/
def sysW3 : Sys := runRequests Sys.init [riskRequest "W3"]

/-- The store after two successful risk evaluations of workflow `"W2"`. -/
def sysW2twice : Sys := runRequests Sys.init [riskRequest "W2", riskRequest "W2"]

/-- A complete `override_applied` payload targeting `"W3"` (scenario 5 of the
spec). -/
def overridePayloadW3 : Payload :=
  { Payload.empty with
    workflow_id := some "W3", decision := some "decline",
    reason := some "manual_fraud_flag", overridden_by := some "op_42",
    tenant_id := some "T" }

end TM

namespace TM

/-! ## Theorems: risk fusion, bands and policies (C6, C7, C8) -/

/-- The policy lookup of `_apply_policies` resolves to the amended threshold
table: lowercase keys hit their entry, everything else falls back to the
default threshold 0.60. -/
theorem aml_threshold_lookup (j : String) :
    ((default_policies j).getD defaultPolicy).aml_threshold = aml_threshold_amended j := by
  unfold default_policies aml_threshold_amended defaultPolicy
  by_cases h0 : j = "default" <;> by_cases h1 : j = "au" <;>
    by_cases h2 : j = "eu" <;> by_cases h3 : j = "gcc" <;>
    simp_all

/-- C6, counterexample: with the jurisdiction string `"EU"` and a medium
band, an AML score of 0.55 is approved by the source (the case-sensitive
policy lookup misses the lowercase `"eu"` key and falls back to the default
threshold 0.60), while the claim's threshold table (EU at 0.50) demands
review. -/
theorem C6_counterexample :
    apply_policies "medium" "EU" (some (55/100)) = Decision.approve ∧
    recommend_claim "medium" "EU" (55/100) = Decision.review ∧
    apply_policies "medium" "EU" (some (55/100)) ≠
      recommend_claim "medium" "EU" (55/100) := by
  refine ⟨?_, ?_, ?_⟩
  · simp [apply_policies, default_policies, defaultPolicy]
    norm_num
  · simp [recommend_claim, aml_threshold_claim]
    norm_num
  · simp [apply_policies, recommend_claim, default_policies, defaultPolicy,
      aml_threshold_claim]
    norm_num
    decide

/-- C6, amended: the recommendation is the pure function of band,
jurisdiction and AML score given by the claim, except that the AML threshold
table is keyed by the lowercase codes `"au"` (0.55), `"eu"` (0.50), `"gcc"`
(0.45), every other jurisdiction string — including `"EU"` — using the
default 0.60; in particular jurisdiction `"EU"`, medium band and AML 0.62
still yield review (0.62 exceeds the default 0.60). -/
theorem C6_amended_policy :
    (∀ (band jurisdiction : String) (aml : ℚ),
      band = "critical" ∨ band = "high" ∨ band = "medium" ∨ band = "low" →
      apply_policies band jurisdiction (some aml) =
        recommend_amended band jurisdiction aml) ∧
    apply_policies "medium" "EU" (some (62/100)) = Decision.review := by
  constructor
  · rintro band j aml (rfl | rfl | rfl | rfl) <;>
      simp [apply_policies, recommend_amended, aml_threshold_lookup]
  · simp [apply_policies, default_policies, defaultPolicy]
    norm_num

/-- C6, witness: the amended theorem applied at a high band and at the
claim's own EU example. -/
theorem C6_witness :
    apply_policies "high" "nz" (some 0) = recommend_amended "high" "nz" 0 ∧
    apply_policies "medium" "EU" (some (62/100)) = Decision.review :=
  ⟨C6_amended_policy.1 "high" "nz" 0 (Or.inr (Or.inl rfl)), C6_amended_policy.2⟩

/-- C7, counterexample: the source adjusts the alias jurisdiction
`"EUROPE"` (the match is on `jurisdiction.upper()` against EU/EUROPE,
AU/AUSTRALIA, GCC/GULF), while the claim's adjustment table ("EU", "AU",
"GCC", otherwise unchanged) leaves it unadjusted: with scores
(0, 0.5, 0, 0) the source fuses to 0.18, the claim to 0.15. -/
theorem C7_counterexample :
    fuse_scores 0 (1/2) 0 0 "EUROPE" = 9/50 ∧
    fuse_claim ⟨0, 1/2, 0, 0⟩ "EUROPE" = 3/20 ∧
    fuse_scores 0 (1/2) 0 0 "EUROPE" ≠ fuse_claim ⟨0, 1/2, 0, 0⟩ "EUROPE" := by
  refine ⟨?_, ?_, ?_⟩ <;>
    · simp [fuse_scores, fuse_scores_method, apply_jurisdiction_adjustments,
        fuse_claim, adjust_claim, pyUpper]
      norm_num

/-- The source's jurisdiction adjustment coincides with the amended
adjustment table (case-insensitive, with the aliases EUROPE, AUSTRALIA and
GULF). -/
theorem adjustments_amended (s : Scores) (j : String) :
    apply_jurisdiction_adjustments s j = adjust_amended s j := rfl

/-- C7, amended: for all four component scores in [0, 1] and any
jurisdiction, fusion applies the jurisdiction adjustment — matching the
upper-cased jurisdiction against EU/EUROPE (aml by 1.20), AU/AUSTRALIA
(credit by 1.15) and GCC/GULF (aml by 1.25), each capped at 1.0, anything
else unchanged — then returns the weighted sum with weights fraud 0.35,
aml 0.30, credit 0.20, liquidity 0.15, clamped to [0, 1]; the result lies in
[0, 1]. -/
theorem C7_amended_fusion :
    ∀ (s : Scores) (jurisdiction : String),
      0 ≤ s.fraud → s.fraud ≤ 1 → 0 ≤ s.aml → s.aml ≤ 1 →
      0 ≤ s.credit → s.credit ≤ 1 → 0 ≤ s.liquidity → s.liquidity ≤ 1 →
      fuse_scores s.fraud s.aml s.credit s.liquidity jurisdiction =
          fuse_amended s jurisdiction ∧
      0 ≤ fuse_scores s.fraud s.aml s.credit s.liquidity jurisdiction ∧
      fuse_scores s.fraud s.aml s.credit s.liquidity jurisdiction ≤ 1 := by
  intro s j _ _ _ _ _ _ _ _
  refine ⟨rfl, ?_, ?_⟩
  · exact le_min (le_max_right _ 0) zero_le_one
  · exact min_le_right _ 1

/-- C7, witness: the amended theorem at scores (0.5, 0.5, 0.5, 0.5) and
jurisdiction "EU". -/
theorem C7_witness :
    fuse_scores (1/2) (1/2) (1/2) (1/2) "EU" = fuse_amended ⟨1/2, 1/2, 1/2, 1/2⟩ "EU" ∧
    0 ≤ fuse_scores (1/2) (1/2) (1/2) (1/2) "EU" ∧
    fuse_scores (1/2) (1/2) (1/2) (1/2) "EU" ≤ 1 :=
  C7_amended_fusion ⟨1/2, 1/2, 1/2, 1/2⟩ "EU" (by norm_num) (by norm_num)
    (by norm_num) (by norm_num) (by norm_num) (by norm_num) (by norm_num)
    (by norm_num)

/-- C8, counterexample: `determine_risk_band` of main.py works on the
service's 0-100 risk-score scale with breakpoints 30 / 60 / 85, not the
claim's 0.40 / 0.60 / 0.80 intervals: the composite 0.35 (risk score 35) is
"low" under the claim's intervals but "medium" for the source, and feeding
the claim's composite 0.85 literally yields "low" instead of "critical". -/
theorem C8_counterexample :
    determine_risk_band 35 = "medium" ∧ band_claim (35/100) = "low" ∧
    determine_risk_band (85/100) = "low" ∧ band_claim (85/100) = "critical" := by
  refine ⟨?_, ?_, ?_, ?_⟩ <;>
    · simp [determine_risk_band, band_claim]
      norm_num

/-- C8, amended: `_determine_risk_level` maps the average of the four
component scores through exactly the claim's closed-open intervals
(low [0, 0.40), medium [0.40, 0.60), high [0.60, 0.80), critical from 0.80),
each value hitting exactly one band, while `determine_risk_band` of main.py
uses the closed-open intervals [0, 30), [30, 60), [60, 85), [85, 100] on its
0-100 risk-score scale. -/
theorem C8_amended_bands :
    (∀ fraud aml credit liquidity : ℚ,
      (determine_risk_level fraud aml credit liquidity).toStr =
        band_claim ((fraud + aml + credit + liquidity) / 4)) ∧
    (∀ x : ℚ, 0 ≤ x → x < 30 → determine_risk_band x = "low") ∧
    (∀ x : ℚ, 30 ≤ x → x < 60 → determine_risk_band x = "medium") ∧
    (∀ x : ℚ, 60 ≤ x → x < 85 → determine_risk_band x = "high") ∧
    (∀ x : ℚ, 85 ≤ x → x ≤ 100 → determine_risk_band x = "critical") := by
  refine ⟨?_, ?_, ?_, ?_, ?_⟩
  · intro f a c l
    simp only [determine_risk_level, band_claim]
    set v := (f + a + c + l) / 4 with hv
    split_ifs <;> simp [RiskLevel.toStr] <;> linarith
  all_goals
    intro x h1 h2
    unfold determine_risk_band
    split_ifs <;> first | rfl | linarith

/-- C8, witness: the amended theorem at concrete scores and risk values in
each regime. -/
theorem C8_witness :
    (determine_risk_level (1/2) (1/2) (1/2) (1/2)).toStr =
      band_claim ((1/2 + 1/2 + 1/2 + 1/2) / 4) ∧
    determine_risk_band 45 = "medium" ∧ determine_risk_band 90 = "critical" :=
  ⟨C8_amended_bands.1 (1/2) (1/2) (1/2) (1/2),
   C8_amended_bands.2.2.1 45 (by norm_num) (by norm_num),
   C8_amended_bands.2.2.2.2 90 (by norm_num) (by norm_num)⟩

/-! ## Supporting lemmas: ledger and store -/

/-- The `decisionEvents` only reads the ledger. -/
theorem decisionEvents_uuid (sys : Sys) (n : ℕ) (wid : String) :
    decisionEvents { sys with uuidSeed := n } wid = decisionEvents sys wid := rfl

/-- The `decisionEvents` after one append: unchanged unless the appended row is a
`decision.finalised` row of this workflow, in which case it is appended. -/
theorem decisionEvents_append (sys : Sys) (wf : IdentityWorkflow)
    (t : String) (pl : EventPayload) (wid : String) :
    decisionEvents (append_event sys wf t pl) wid =
      decisionEvents sys wid ++
        (if wf.id = wid ∧ t = decisionEventType then
          [⟨mkUuid sys.uuidSeed, wf.id, wf.tenant_id, t, pl, sys.events.length⟩]
        else []) := by
  by_cases h : wf.id = wid ∧ t = decisionEventType
  · simp [decisionEvents, append_event, List.filter_append, h, h.1, h.2]
  · rw [if_neg h]
    have hb : ((wf.id == wid) && (t == decisionEventType)) = false := by
      rcases not_and_or.mp h with h1 | h1 <;> simp [h1]
    simp [decisionEvents, append_event, List.filter_append, hb]

/-- The store after an append. -/
theorem append_event_workflows (sys : Sys) (wf : IdentityWorkflow)
    (t : String) (pl : EventPayload) :
    (append_event sys wf t pl).workflows = sys.workflows := rfl

/-- The store after a save. -/
theorem save_workflows (sys : Sys) (wf : IdentityWorkflow) (k : String) :
    (sys.save wf).workflows k = if k = wf.id then some wf else sys.workflows k := rfl

/-- A save does not touch the ledger. -/
theorem save_events (sys : Sys) (wf : IdentityWorkflow) :
    (sys.save wf).events = sys.events := rfl

/-- The `get_or_create_workflow` does not touch the ledger. -/
theorem get_or_create_events (sys : Sys) (wid tid : String) :
    ((get_or_create_workflow sys wid tid).2).events = sys.events := by
  unfold get_or_create_workflow
  cases sys.workflows wid <;> rfl

/-- The `get_or_create_workflow` returns a row whose id is the requested key. -/
theorem get_or_create_id (sys : Sys) (wid tid : String) (h : KeysOk sys) :
    (get_or_create_workflow sys wid tid).1.id = wid := by
  unfold get_or_create_workflow
  cases hw : sys.workflows wid with
  | some wf => exact h wid wf hw
  | none => rfl

/-- The `emit_decision_finalised` does not touch the workflow table. -/
theorem emit_workflows (sys : Sys) (wf : IdentityWorkflow) (r : RiskResult)
    (c : Option String) :
    (emit_decision_finalised sys wf r c).workflows = sys.workflows := by
  unfold emit_decision_finalised
  cases c <;> rfl

/-- What `emit_decision_finalised` appends, seen through `decisionEvents`:
exactly one `decision.finalised` row for the workflow of the given row (and
none for any other workflow), whose payload records the workflow's cached
decision as outcome and `"dec_" ++ wf.id` as `decision_id`. -/
theorem decisionEvents_emit (sys : Sys) (wf : IdentityWorkflow)
    (r : RiskResult) (c : Option String) (wid : String) :
    decisionEvents (emit_decision_finalised sys wf r c) wid =
      decisionEvents sys wid ++ (if wf.id = wid then [emitRow sys wf r c] else []) := by
  unfold emit_decision_finalised emitRow
  rw [decisionEvents_append]
  simp [decisionEvents_uuid]

/-- The emitted row records the workflow's cached decision as outcome. -/
theorem emitRow_outcome (sys : Sys) (wf : IdentityWorkflow) (r : RiskResult)
    (c : Option String) : (emitRow sys wf r c).decisionOutcome = wf.decision := rfl

/-- The emitted row's `decision_id` is the deterministic `"dec_" ++ wf.id`. -/
theorem emitRow_decisionId (sys : Sys) (wf : IdentityWorkflow) (r : RiskResult)
    (c : Option String) :
    (emitRow sys wf r c).decisionId = some ("dec_" ++ wf.id) := rfl

/-- The `decisionEvents` ignores workflow-table writes. -/
theorem decisionEvents_save (sys : Sys) (wf : IdentityWorkflow) (wid : String) :
    decisionEvents (sys.save wf) wid = decisionEvents sys wid := rfl

/-- The `decisionEvents` is unchanged by `get_or_create_workflow`. -/
theorem decisionEvents_get_or_create (sys : Sys) (wid tid w : String) :
    decisionEvents ((get_or_create_workflow sys wid tid).2) w =
      decisionEvents sys w := by
  unfold decisionEvents
  rw [get_or_create_events]

/-- The `riskMutate` keeps the workflow id. -/
theorem riskMutate_id (wf : IdentityWorkflow) (r : RiskResult) (n : ℕ) :
    (riskMutate wf r n).id = wf.id := by
  unfold riskMutate
  cases r.final_risk <;> rfl

/-- The `riskMutate` keeps the tenant id. -/
theorem riskMutate_tenant (wf : IdentityWorkflow) (r : RiskResult) (n : ℕ) :
    (riskMutate wf r n).tenant_id = wf.tenant_id := by
  unfold riskMutate
  cases r.final_risk <;> rfl

/-- The post-state of `riskMutate`: `risk_evaluated` on a response carrying
`final_risk`, `risk_failed` otherwise. -/
theorem riskMutate_state (wf : IdentityWorkflow) (r : RiskResult) (n : ℕ) :
    (riskMutate wf r n).state =
      (if r.final_risk.isSome then "risk_evaluated" else "risk_failed") := by
  unfold riskMutate
  cases r.final_risk <;> rfl

/-- The cached decision after `riskMutate`: the risk recommendation on
success, unchanged on the degraded branch. -/
theorem riskMutate_decision (wf : IdentityWorkflow) (r : RiskResult) (n : ℕ) :
    (riskMutate wf r n).decision =
      (match r.final_risk with
        | some _ => (r.decision.getD ⟨none, none⟩).recommendation
        | none => wf.decision) := by
  unfold riskMutate
  cases r.final_risk <;> rfl

/-- The degraded branch of `riskMutate` records the error under
`data.risk_error` (`setdefault`: the incoming result unless already set) and
always stores `data.risk_result`. -/
theorem riskMutate_degraded_data (wf : IdentityWorkflow) (r : RiskResult)
    (n : ℕ) (h : r.final_risk = none) :
    (riskMutate wf r n).data.risk_error = some (wf.data.risk_error.getD r) ∧
    (riskMutate wf r n).data.risk_result = some r := by
  unfold riskMutate
  rw [h]
  exact ⟨rfl, rfl⟩

/-- Every call of the override handler raises: falsy `workflow_id`, missing
workflow and missing prior decision raise `ValueError`, and the remaining
path raises `AttributeError` at `original_decision.data`. -/
theorem handle_override_applied_always_errors (p : Payload)
    (c : Option String) (sys : Sys) :
    ∃ e, handle_override_applied p c sys = .error e := by
  unfold handle_override_applied
  cases hp : p.workflow_id with
  | none => exact ⟨_, rfl⟩
  | some wid =>
    dsimp only
    by_cases hw : wid = ""
    · rw [if_pos hw]
      exact ⟨_, rfl⟩
    · rw [if_neg hw]
      cases hwf : sys.workflows wid with
      | none => exact ⟨_, rfl⟩
      | some wf =>
        cases hh : (decisionEvents sys wid).head? with
        | none => exact ⟨_, rfl⟩
        | some e0 => exact ⟨_, rfl⟩

/-- An `override_applied` event routed through the dispatcher never changes
the store (every path of the handler raises before any write). -/
theorem override_request_noop (p : Payload) (c : Option String)
    (r : RiskResult) (sys : Sys) :
    stepRequest sys (.event ⟨some "override_applied", p, c, r⟩) = sys := by
  obtain ⟨e, he⟩ := handle_override_applied_always_errors p c sys
  simp [stepRequest, dispatch_event, he, Except.map]

/-- A manual-decision request never changes the store (404 when the workflow
is missing, `TypeError` in the `ManualDecision` constructor otherwise). -/
theorem manual_request_noop (wid d : String) (reason : Option String)
    (sys : Sys) :
    stepRequest sys (.manualDecision wid d reason) = sys := by
  unfold stepRequest apply_manual_decision
  dsimp only
  cases hwf : sys.workflows wid <;> rfl

/-- C5: an `override_applied` event is rejected with a domain error
(`ValueError`), with no event appended and no state written, whenever the
target workflow has no prior `decision.finalised` event; a payload with a
missing (or falsy) `workflow_id` is rejected the same way before any write;
and a payload missing `decision` is also rejected before any write — no
override request ever commits (the only path past the validations raises
`AttributeError` at `original_decision.data` before mutating anything). -/
theorem C5_override_rejection :
    (∀ (p : Payload) (c : Option String) (sys : Sys) (wid : String),
      p.workflow_id = some wid → wid ≠ "" → decisionEvents sys wid = [] →
      ∃ m, handle_override_applied p c sys = .error (.valueError m)) ∧
    (∀ (p : Payload) (c : Option String) (sys : Sys), p.workflow_id = none →
      handle_override_applied p c sys =
        .error (.valueError "workflow_id is required for override.applied")) ∧
    (∀ (p : Payload) (c : Option String) (sys : Sys), p.decision = none →
      ∃ e, handle_override_applied p c sys = .error e) ∧
    (∀ (p : Payload) (c : Option String) (r : RiskResult) (sys : Sys),
      stepRequest sys (.event ⟨some "override_applied", p, c, r⟩) = sys) := by
  refine ⟨?_, ?_, ?_, ?_⟩
  · intro p c sys wid hp hne hde
    unfold handle_override_applied
    rw [hp]
    dsimp only
    rw [if_neg hne]
    cases hwf : sys.workflows wid with
    | none => exact ⟨_, rfl⟩
    | some wf =>
      rw [hde]
      exact ⟨_, rfl⟩
  · intro p c sys hp
    unfold handle_override_applied
    rw [hp]
  · intro p c sys _
    exact handle_override_applied_always_errors p c sys
  · intro p c r sys
    exact override_request_noop p c r sys

/-- C5, witness: the three rejection modes at concrete inputs — an override
for `"W9"` against the empty store (workflow absent, hence no prior
decision), an override with no `workflow_id`, and an override missing
`decision`. -/
theorem C5_witness :
    (∃ m, handle_override_applied
      { Payload.empty with workflow_id := some "W9", decision := some "approve" }
      none Sys.init = .error (.valueError m)) ∧
    handle_override_applied Payload.empty none Sys.init =
      .error (.valueError "workflow_id is required for override.applied") ∧
    (∃ e, handle_override_applied
      { Payload.empty with workflow_id := some "W9" } none Sys.init = .error e) ∧
    stepRequest Sys.init
      (.event ⟨some "override_applied", Payload.empty, none, okRiskResult⟩) =
      Sys.init :=
  ⟨C5_override_rejection.1 _ none Sys.init "W9" rfl (by decide) rfl,
   C5_override_rejection.2.1 Payload.empty none Sys.init rfl,
   C5_override_rejection.2.2.1 _ none Sys.init rfl,
   C5_override_rejection.2.2.2 Payload.empty none okRiskResult Sys.init⟩

/-- C10: for a workflow with zero `decision.finalised` events — whether or
not the workflow row exists — the decision-timeline query and the
current-decision query both fail with HTTP 404 (neither endpoint consults
the workflow table, only the ledger). -/
theorem C10_no_decision_404 :
    ∀ (sys : Sys) (wid : String), decisionEvents sys wid = [] →
      get_decision_timeline wid sys =
        .error (.http 404 ("No decisions found for workflow " ++ wid)) ∧
      get_current_decision wid sys =
        .error (.http 404 ("No decision found for workflow " ++ wid)) := by
  intro sys wid h
  constructor
  · unfold get_decision_timeline
    simp [h]
  · unfold get_current_decision
    simp [h]

/-- C10, witness: both queries 404 on the empty store. -/
theorem C10_witness :
    get_decision_timeline "W0" Sys.init =
      .error (.http 404 ("No decisions found for workflow " ++ "W0")) ∧
    get_current_decision "W0" Sys.init =
      .error (.http 404 ("No decision found for workflow " ++ "W0")) :=
  C10_no_decision_404 Sys.init "W0" rfl

/-- C3: evaluating the override handler at the failing input — an
`override_applied` event carrying `workflow_id`, `decision`, `reason` and
`overridden_by` for workflow `"W3"`, which has exactly one prior
`decision.finalised` event — raises `AttributeError` (the source reads
`original_decision.data`, but the `WorkflowEvent` model only declares
`payload`), so no lineage `decision.finalised` event is ever appended and
the store is left unchanged. -/
theorem C3_override_attribute_error :
    handle_override_applied overridePayloadW3 none sysW3 =
      .error (.attributeError "WorkflowEvent object has no attribute data") ∧
    (decisionEvents sysW3 "W3").length = 1 ∧
    stepRequest sysW3
      (.event ⟨some "override_applied", overridePayloadW3, none, okRiskResult⟩) =
      sysW3 :=
  ⟨rfl, rfl, override_request_noop overridePayloadW3 none okRiskResult sysW3⟩

/-- The workflow id of the row the risk handler saves. -/
theorem risk_wf_id (sys : Sys) (wid tid : String) (r : RiskResult)
    (hkeys : KeysOk sys) :
    (riskMutate (get_or_create_workflow sys wid tid).1 r
      (get_or_create_workflow sys wid tid).2.events.length).id = wid := by
  rw [riskMutate_id, get_or_create_id sys wid tid hkeys]

/-- C2: a `risk_evaluate` event which the dispatcher processes to completion
(its payload carries `tenant_id` and `workflow_id`) appends exactly one
`decision.finalised` event for the target workflow — whatever the risk
result, degraded included — and none for any other workflow, and the same
committed store carries the workflow mutation (post-state `risk_evaluated`
or `risk_failed`): the append and the mutation are one transaction. -/
theorem C2_exactly_one_decision :
    ∀ (p : Payload) (c : Option String) (r : RiskResult) (sys : Sys)
      (tid wid : String),
      KeysOk sys → p.tenant_id = some tid → p.workflow_id = some wid →
      ∃ s, handle_risk_evaluation p c r sys = .ok s ∧
        (decisionEvents s wid).length = (decisionEvents sys wid).length + 1 ∧
        (∀ w, w ≠ wid → decisionEvents s w = decisionEvents sys w) ∧
        (∃ wf, s.workflows wid = some wf ∧
          (wf.state = "risk_evaluated" ∨ wf.state = "risk_failed")) := by
  intro p c r sys tid wid hkeys h1 h2
  unfold handle_risk_evaluation
  rw [h1]
  dsimp only
  rw [h2]
  dsimp only
  have hid := risk_wf_id sys wid tid r hkeys
  refine ⟨_, rfl, ?_, ?_, ?_⟩
  · rw [decisionEvents_append,
      if_neg (fun hcon => absurd hcon.2 (by decide)),
      decisionEvents_emit, if_pos hid, decisionEvents_save,
      decisionEvents_get_or_create]
    simp
  · intro w hw
    rw [decisionEvents_append,
      if_neg (fun hcon => absurd hcon.2 (by decide)),
      decisionEvents_emit,
      if_neg (fun hcon => hw (by rw [← hcon]; exact hid)),
      decisionEvents_save, decisionEvents_get_or_create]
    simp
  · rw [append_event_workflows, emit_workflows]
    refine ⟨riskMutate (get_or_create_workflow sys wid tid).1 r
      (get_or_create_workflow sys wid tid).2.events.length, ?_, ?_⟩
    · rw [save_workflows, if_pos hid.symm]
    · rw [riskMutate_state]
      cases r.final_risk with
      | none => right; rfl
      | some fr => left; rfl

/-- C2, witness: one successful risk evaluation of `"W4"` on the empty
store. -/
theorem C2_witness :
    ∃ s, handle_risk_evaluation (riskPayload "W4") none okRiskResult Sys.init =
        .ok s ∧
      (decisionEvents s "W4").length = (decisionEvents Sys.init "W4").length + 1 ∧
      (∀ w, w ≠ "W4" → decisionEvents s w = decisionEvents Sys.init w) ∧
      (∃ wf, s.workflows "W4" = some wf ∧
        (wf.state = "risk_evaluated" ∨ wf.state = "risk_failed")) :=
  C2_exactly_one_decision (riskPayload "W4") none okRiskResult Sys.init "T" "W4"
    (fun _ _ h => by simp [Sys.init] at h) rfl rfl

/-- C1, counterexample: processing a `risk_evaluate` event whose risk call
yields a degraded result (no `final_risk`) on a fresh workflow sets the
state to `risk_failed` and records the error under `data.risk_error` — but
appends one `decision.finalised` event, not zero: the emission at
workflow_service.py line 286 is outside the success branch and runs
unconditionally. -/
theorem C1_counterexample :
    ∃ s, handle_risk_evaluation (riskPayload "W1") none
        (degradedResult "timeout") Sys.init = .ok s ∧
      (∃ wf, s.workflows "W1" = some wf ∧ wf.state = "risk_failed" ∧
        wf.data.risk_error = some (degradedResult "timeout")) ∧
      (decisionEvents s "W1").length = 1 ∧
      (decisionEvents s "W1").length ≠ 0 := by
  refine ⟨_, rfl, ⟨_, rfl, rfl, rfl⟩, rfl, by decide⟩

/-- C1, amended: on a degraded risk result the handler sets the workflow
state to `risk_failed`, records the error in `data.risk_error` and the raw
result in `data.risk_result`, and — unlike the claim's "zero" — still
appends exactly one `decision.finalised` event for the workflow in that same
transaction (its outcome is the workflow's previously cached decision, null
for a fresh workflow). -/
theorem C1_amended_degraded :
    ∀ (p : Payload) (c : Option String) (r : RiskResult) (sys : Sys)
      (tid wid : String),
      KeysOk sys → p.tenant_id = some tid → p.workflow_id = some wid →
      r.final_risk = none →
      ∃ s, handle_risk_evaluation p c r sys = .ok s ∧
        (∃ wf, s.workflows wid = some wf ∧ wf.state = "risk_failed" ∧
          wf.data.risk_error.isSome ∧ wf.data.risk_result = some r) ∧
        (decisionEvents s wid).length = (decisionEvents sys wid).length + 1 := by
  intro p c r sys tid wid hkeys h1 h2 hdeg
  unfold handle_risk_evaluation
  rw [h1]
  dsimp only
  rw [h2]
  dsimp only
  have hid := risk_wf_id sys wid tid r hkeys
  refine ⟨_, rfl, ?_, ?_⟩
  · rw [append_event_workflows, emit_workflows]
    refine ⟨riskMutate (get_or_create_workflow sys wid tid).1 r
      (get_or_create_workflow sys wid tid).2.events.length, ?_, ?_, ?_, ?_⟩
    · rw [save_workflows, if_pos hid.symm]
    · rw [riskMutate_state, hdeg]
      rfl
    · rw [(riskMutate_degraded_data _ _ _ hdeg).1]
      rfl
    · exact (riskMutate_degraded_data _ _ _ hdeg).2
  · rw [decisionEvents_append,
      if_neg (fun hcon => absurd hcon.2 (by decide)),
      decisionEvents_emit, if_pos hid, decisionEvents_save,
      decisionEvents_get_or_create]
    simp

/-- C1, witness: a degraded evaluation of `"W5"` on the empty store. -/
theorem C1_witness :
    ∃ s, handle_risk_evaluation (riskPayload "W5") none
        (degradedResult "conn refused") Sys.init = .ok s ∧
      (∃ wf, s.workflows "W5" = some wf ∧ wf.state = "risk_failed" ∧
        wf.data.risk_error.isSome ∧
        wf.data.risk_result = some (degradedResult "conn refused")) ∧
      (decisionEvents s "W5").length =
        (decisionEvents Sys.init "W5").length + 1 :=
  C1_amended_degraded (riskPayload "W5") none (degradedResult "conn refused")
    Sys.init "T" "W5" (fun _ _ h => by simp [Sys.init] at h) rfl rfl rfl

/-- Left-cancellation for string append. -/
theorem string_append_left_cancel (s a b : String) (h : s ++ a = s ++ b) :
    a = b := by
  have h3 : s.data ++ a.data = s.data ++ b.data := congrArg String.data h
  have h4 : a.data = b.data := List.append_cancel_left h3
  exact String.ext h4

/-- The latest `decision.finalised` row after an emission carries the
deterministic `decision_id` `"dec_" ++ wf.id`. -/
theorem emit_last_decisionId (sys : Sys) (wf : IdentityWorkflow)
    (r : RiskResult) (c : Option String) :
    ((decisionEvents (emit_decision_finalised sys wf r c) wf.id).getLast?).bind
        WorkflowEvent.decisionId = some ("dec_" ++ wf.id) := by
  rw [decisionEvents_emit, if_pos rfl, List.getLast?_concat]
  rfl

/-- C9, counterexample: processing two separate `risk_evaluate` events for
the same workflow `"W2"` appends two distinct `decision.finalised` events
that carry the same `decision_id` `"dec_W2"` (the id is the deterministic
string `"dec_" ++ workflow_id`, so it is not unique across the events of one
workflow). -/
theorem C9_counterexample :
    ∃ e1 e2 : WorkflowEvent, decisionEvents sysW2twice "W2" = [e1, e2] ∧
      e1 ≠ e2 ∧ e1.decisionId = some "dec_W2" ∧
      e2.decisionId = some "dec_W2" := by
  refine ⟨_, _, rfl, ?_, rfl, rfl⟩
  intro h
  exact absurd (congrArg WorkflowEvent.created_at h) (by decide)

/-- C9, amended: risk-path decision ids are `"dec_" ++ workflow_id`, so the
`decision.finalised` events emitted by `emit_decision_finalised` for two
distinct workflows always carry distinct `decision_id`s — but every emission
for the same workflow carries the same `decision_id`, so the ids repeat when
two `risk_evaluate` events are processed for one workflow. -/
theorem C9_amended_decision_ids :
    (∀ (sys1 sys2 : Sys) (wf1 wf2 : IdentityWorkflow) (r1 r2 : RiskResult)
       (c1 c2 : Option String), wf1.id ≠ wf2.id →
      ((decisionEvents (emit_decision_finalised sys1 wf1 r1 c1) wf1.id).getLast?).bind
          WorkflowEvent.decisionId ≠
        ((decisionEvents (emit_decision_finalised sys2 wf2 r2 c2) wf2.id).getLast?).bind
          WorkflowEvent.decisionId) ∧
    (∀ (sys1 sys2 : Sys) (wf1 wf2 : IdentityWorkflow) (r1 r2 : RiskResult)
       (c1 c2 : Option String), wf1.id = wf2.id →
      ((decisionEvents (emit_decision_finalised sys1 wf1 r1 c1) wf1.id).getLast?).bind
          WorkflowEvent.decisionId =
        ((decisionEvents (emit_decision_finalised sys2 wf2 r2 c2) wf2.id).getLast?).bind
          WorkflowEvent.decisionId) := by
  constructor
  · intro sys1 sys2 wf1 wf2 r1 r2 c1 c2 hne
    rw [emit_last_decisionId, emit_last_decisionId]
    intro h
    exact hne (string_append_left_cancel "dec_" wf1.id wf2.id (Option.some.inj h))
  · intro sys1 sys2 wf1 wf2 r1 r2 c1 c2 heq
    rw [emit_last_decisionId, emit_last_decisionId, heq]

/-- C9, witness: the amended theorem at two fresh workflows `"WA"`, `"WB"`
and at the same workflow twice. -/
theorem C9_witness :
    ((decisionEvents (emit_decision_finalised Sys.init
        (freshWorkflow Sys.init "WA" "T") okRiskResult none) "WA").getLast?).bind
        WorkflowEvent.decisionId ≠
      ((decisionEvents (emit_decision_finalised Sys.init
        (freshWorkflow Sys.init "WB" "T") okRiskResult none) "WB").getLast?).bind
        WorkflowEvent.decisionId :=
  C9_amended_decision_ids.1 Sys.init Sys.init (freshWorkflow Sys.init "WA" "T")
    (freshWorkflow Sys.init "WB" "T") okRiskResult okRiskResult none none
    (by decide)

/-! ## Cache coherence (C4): the reachable-state invariant -/

/-- The empty store satisfies the invariant. -/
theorem inv_init : Inv Sys.init := by
  refine ⟨?_, ?_, ?_, ?_⟩
  · intro wid wf h
    simp [Sys.init] at h
  · intro wid _
    rfl
  · intro wid wf h
    simp [Sys.init] at h
  · intro i hi
    simp [Sys.init] at hi

/-- Saving a row keeps the table keyed by primary key. -/
theorem keysOk_save (sys : Sys) (wf : IdentityWorkflow) (h : KeysOk sys) :
    KeysOk (sys.save wf) := by
  intro k wfx hk
  rw [save_workflows] at hk
  by_cases hkw : k = wf.id
  · rw [if_pos hkw] at hk
    cases hk
    exact hkw.symm
  · rw [if_neg hkw] at hk
    exact h k wfx hk

/-- The `ledgerDecision` ignores workflow-table writes. -/
theorem ledgerDecision_save (sys : Sys) (wf : IdentityWorkflow) (k : String) :
    ledgerDecision (sys.save wf) k = ledgerDecision sys k := rfl

/-- The `ledgerDecision` is unchanged by appending a non-decision event. -/
theorem ledgerDecision_append_nondec (sys : Sys) (wf : IdentityWorkflow)
    (t : String) (pl : EventPayload) (k : String) (ht : t ≠ decisionEventType) :
    ledgerDecision (append_event sys wf t pl) k = ledgerDecision sys k := by
  unfold ledgerDecision
  rw [decisionEvents_append, if_neg (fun hc => ht hc.2)]
  simp

/-- After an emission, the ledger's latest outcome for the emitting workflow
is the workflow's cached decision. -/
theorem ledgerDecision_emit_self (sys : Sys) (wf : IdentityWorkflow)
    (r : RiskResult) (c : Option String) :
    ledgerDecision (emit_decision_finalised sys wf r c) wf.id = wf.decision := by
  unfold ledgerDecision
  rw [decisionEvents_emit, if_pos rfl, List.getLast?_concat]
  rfl

/-- An emission leaves other workflows' ledger decisions unchanged. -/
theorem ledgerDecision_emit_other (sys : Sys) (wf : IdentityWorkflow)
    (r : RiskResult) (c : Option String) (k : String) (hk : k ≠ wf.id) :
    ledgerDecision (emit_decision_finalised sys wf r c) k = ledgerDecision sys k := by
  unfold ledgerDecision
  rw [decisionEvents_emit, if_neg (fun hc => hk hc.symm)]
  simp

/-- Appending keeps the ledger indexed by the insertion clock. -/
theorem eventsIndexed_append (sys : Sys) (wf : IdentityWorkflow) (t : String)
    (pl : EventPayload) (h : EventsIndexed sys) :
    EventsIndexed (append_event sys wf t pl) := by
  intro i hi
  have hi2 : i < sys.events.length + 1 := by
    simpa [append_event] using hi
  rcases lt_or_ge i sys.events.length with hlt | hge
  · have hx := h i hlt
    simp only [append_event, List.get_eq_getElem] at hx ⊢
    rw [List.getElem_append_left hlt]
    exact hx
  · have heq : i = sys.events.length := le_antisymm (Nat.lt_succ_iff.mp hi2) hge
    subst heq
    simp [append_event, List.get_eq_getElem]

/-- The workflow produced by `get_or_create_workflow` is cache-coherent with
the ledger. -/
theorem get_or_create_decision (sys : Sys) (wid tid : String) (hInv : Inv sys) :
    (get_or_create_workflow sys wid tid).1.decision = ledgerDecision sys wid := by
  obtain ⟨hK, hN, hC, hE⟩ := hInv
  unfold get_or_create_workflow
  cases hw : sys.workflows wid with
  | some wf0 => exact hC wid wf0 hw
  | none =>
    show (freshWorkflow sys wid tid).decision = ledgerDecision sys wid
    unfold ledgerDecision
    rw [hN wid hw]
    rfl

/-- The `get_or_create_workflow` preserves the invariant. -/
theorem inv_get_or_create (sys : Sys) (wid tid : String) (hInv : Inv sys) :
    Inv (get_or_create_workflow sys wid tid).2 := by
  obtain ⟨hK, hN, hC, hE⟩ := hInv
  unfold get_or_create_workflow
  cases hw : sys.workflows wid with
  | some wf0 => exact ⟨hK, hN, hC, hE⟩
  | none =>
    show Inv (sys.save (freshWorkflow sys wid tid))
    have hfid : (freshWorkflow sys wid tid).id = wid := rfl
    refine ⟨keysOk_save sys _ hK, ?_, ?_, hE⟩
    · intro k hk
      rw [save_workflows, hfid] at hk
      by_cases hkw : k = wid
      · rw [if_pos hkw] at hk
        cases hk
      · rw [if_neg hkw] at hk
        exact hN k hk
    · intro k wfx hk
      rw [save_workflows, hfid] at hk
      by_cases hkw : k = wid
      · rw [if_pos hkw] at hk
        cases hk
        subst hkw
        rw [ledgerDecision_save]
        unfold ledgerDecision
        rw [hN k hw]
        rfl
      · rw [if_neg hkw] at hk
        exact hC k wfx hk

/-- Committing a non-decision transaction — upsert one coherent workflow row
and append one non-decision event on its behalf — preserves the invariant. -/
theorem inv_commit_nondec (sys : Sys) (wf : IdentityWorkflow) (t : String)
    (pl : EventPayload) (hInv : Inv sys)
    (hdec : wf.decision = ledgerDecision sys wf.id) (ht : t ≠ decisionEventType) :
    Inv (append_event (sys.save wf) wf t pl) := by
  obtain ⟨hK, hN, hC, hE⟩ := hInv
  refine ⟨?_, ?_, ?_, ?_⟩
  · intro k wfx hk
    rw [append_event_workflows] at hk
    exact keysOk_save sys wf hK k wfx hk
  · intro k hk
    rw [append_event_workflows, save_workflows] at hk
    by_cases hkw : k = wf.id
    · rw [if_pos hkw] at hk
      cases hk
    · rw [if_neg hkw] at hk
      rw [decisionEvents_append, decisionEvents_save,
        if_neg (fun hc => hkw hc.1.symm), hN k hk]
      rfl
  · intro k wfx hk
    rw [append_event_workflows, save_workflows] at hk
    rw [ledgerDecision_append_nondec _ _ _ _ _ ht, ledgerDecision_save]
    by_cases hkw : k = wf.id
    · rw [if_pos hkw] at hk
      cases hk
      rw [hkw]
      exact hdec
    · rw [if_neg hkw] at hk
      exact hC k wfx hk
  · exact eventsIndexed_append _ _ _ _ hE

/-- Committing a risk transaction — upsert the mutated workflow row, emit
`decision.finalised` through the Decision Authority, append the audit row —
preserves the invariant: the fresh decision event's outcome is exactly the
row's cached decision, re-establishing coherence. -/
theorem inv_commit_risk (sys : Sys) (wf : IdentityWorkflow) (r : RiskResult)
    (c : Option String) (signals : Bag) (hInv : Inv sys) :
    Inv (append_event (emit_decision_finalised (sys.save wf) wf r c) wf
      "risk_evaluated" (.riskEvaluated signals r)) := by
  obtain ⟨hK, hN, hC, hE⟩ := hInv
  have hnd : ("risk_evaluated" : String) ≠ decisionEventType := by decide
  refine ⟨?_, ?_, ?_, ?_⟩
  · intro k wfx hk
    rw [append_event_workflows, emit_workflows] at hk
    exact keysOk_save sys wf hK k wfx hk
  · intro k hk
    rw [append_event_workflows, emit_workflows, save_workflows] at hk
    by_cases hkw : k = wf.id
    · rw [if_pos hkw] at hk
      cases hk
    · rw [if_neg hkw] at hk
      rw [decisionEvents_append, if_neg (fun hc => hkw hc.1.symm),
        decisionEvents_emit, if_neg (fun hc => hkw hc.symm),
        decisionEvents_save, hN k hk]
      rfl
  · intro k wfx hk
    rw [append_event_workflows, emit_workflows, save_workflows] at hk
    rw [ledgerDecision_append_nondec _ _ _ _ _ hnd]
    by_cases hkw : k = wf.id
    · rw [if_pos hkw] at hk
      cases hk
      rw [hkw, ledgerDecision_emit_self]
    · rw [if_neg hkw] at hk
      rw [ledgerDecision_emit_other _ _ _ _ _ hkw, ledgerDecision_save]
      exact hC k wfx hk
  · apply eventsIndexed_append
    show EventsIndexed (append_event _ wf decisionEventType _)
    exact eventsIndexed_append _ _ _ _ hE

/-- The `ledgerDecision` is unchanged by `get_or_create_workflow`. -/
theorem ledgerDecision_get_or_create (sys : Sys) (wid tid k : String) :
    ledgerDecision ((get_or_create_workflow sys wid tid).2) k =
      ledgerDecision sys k := by
  unfold ledgerDecision
  rw [decisionEvents_get_or_create]

/-- The common commit shape of the selfie / id / match handlers: get or
create the workflow, apply a mutation that touches neither `id` nor
`decision`, save, append one non-decision event.  This preserves the
invariant. -/
theorem inv_commit_from_get (sys : Sys) (wid tid t : String)
    (pl : EventPayload) (mu : IdentityWorkflow → IdentityWorkflow)
    (hInv : Inv sys) (ht : t ≠ decisionEventType)
    (hmid : ∀ w, (mu w).id = w.id)
    (hmdec : ∀ w, (mu w).decision = w.decision) :
    Inv (append_event ((get_or_create_workflow sys wid tid).2.save
        (mu (get_or_create_workflow sys wid tid).1))
      (mu (get_or_create_workflow sys wid tid).1) t pl) := by
  apply inv_commit_nondec _ _ _ _ (inv_get_or_create sys wid tid hInv) ?_ ht
  rw [hmdec, hmid, ledgerDecision_get_or_create,
    get_or_create_id sys wid tid hInv.1]
  exact get_or_create_decision sys wid tid hInv

/-- The selfie handler preserves the invariant. -/
theorem inv_selfie (p : Payload) (sys s : Sys) (hInv : Inv sys)
    (h : handle_selfie_uploaded p sys = .ok s) : Inv s := by
  unfold handle_selfie_uploaded at h
  cases h1 : p.tenant_id with
  | none =>
    rw [h1] at h
    exact Except.noConfusion h
  | some tid =>
    rw [h1] at h
    dsimp only at h
    cases h2 : p.session_id with
    | none =>
      rw [h2] at h
      exact Except.noConfusion h
    | some sid =>
      rw [h2] at h
      dsimp only at h
      cases Except.ok.inj h
      exact inv_commit_from_get sys (pyOrStr p.workflow_id sid) tid
        "selfie_uploaded" (.inbound p)
        (fun w => { w with
          selfie_session_id := some sid,
          state := "selfie_uploaded",
          data := { w.data with selfie_liveness := some (p.liveness.getD []) },
          updated_at :=
            (get_or_create_workflow sys (pyOrStr p.workflow_id sid) tid).2.events.length })
        hInv (by decide) (fun w => rfl) (fun w => rfl)

/-- The id-upload handler preserves the invariant. -/
theorem inv_id_uploaded (p : Payload) (sys s : Sys) (hInv : Inv sys)
    (h : handle_id_uploaded p sys = .ok s) : Inv s := by
  unfold handle_id_uploaded at h
  cases h1 : p.tenant_id with
  | none =>
    rw [h1] at h
    exact Except.noConfusion h
  | some tid =>
    rw [h1] at h
    dsimp only at h
    cases h2 : p.workflow_id with
    | none =>
      rw [h2] at h
      exact Except.noConfusion h
    | some wid =>
      rw [h2] at h
      dsimp only at h
      cases h3 : p.id_session_id with
      | none =>
        rw [h3] at h
        exact Except.noConfusion h
      | some iid =>
        rw [h3] at h
        dsimp only at h
        cases Except.ok.inj h
        exact inv_commit_from_get sys wid tid "id_uploaded" (.inbound p)
          (fun w => { w with
            id_session_id := some iid,
            state := "id_uploaded",
            data := { w.data with
              id_document_metadata := some (p.document_metadata.getD []) },
            updated_at := (get_or_create_workflow sys wid tid).2.events.length })
          hInv (by decide) (fun w => rfl) (fun w => rfl)

/-- The match handler preserves the invariant. -/
theorem inv_match (p : Payload) (sys s : Sys) (hInv : Inv sys)
    (h : handle_match_completed p sys = .ok s) : Inv s := by
  unfold handle_match_completed at h
  cases h1 : p.tenant_id with
  | none =>
    rw [h1] at h
    exact Except.noConfusion h
  | some tid =>
    rw [h1] at h
    dsimp only at h
    cases h2 : p.workflow_id with
    | none =>
      rw [h2] at h
      exact Except.noConfusion h
    | some wid =>
      rw [h2] at h
      dsimp only at h
      cases h3 : p.matchFlag with
      | none =>
        rw [h3] at h
        exact Except.noConfusion h
      | some isM =>
        rw [h3] at h
        dsimp only at h
        cases Except.ok.inj h
        exact inv_commit_from_get sys wid tid "match_completed" (.inbound p)
          (fun w => { w with
            selfie_session_id :=
              match p.selfie_session_id with
              | some v => some v
              | none => w.selfie_session_id,
            id_session_id :=
              match p.id_session_id with
              | some v => some v
              | none => w.id_session_id,
            data := { w.data with
              match_raw := some (p.raw.getD []),
              match_fused_score := p.fused_score,
              match_is_match := some isM },
            state := if isM then "match_verified" else "match_failed",
            updated_at := (get_or_create_workflow sys wid tid).2.events.length })
          hInv (by decide) (fun w => rfl) (fun w => rfl)

/-- The risk handler preserves the invariant: whatever the risk result, the
freshly emitted `decision.finalised` event's outcome equals the saved row's
cached decision. -/
theorem inv_risk (p : Payload) (c : Option String) (r : RiskResult)
    (sys s : Sys) (hInv : Inv sys)
    (h : handle_risk_evaluation p c r sys = .ok s) : Inv s := by
  unfold handle_risk_evaluation at h
  cases h1 : p.tenant_id with
  | none =>
    rw [h1] at h
    exact Except.noConfusion h
  | some tid =>
    rw [h1] at h
    dsimp only at h
    cases h2 : p.workflow_id with
    | none =>
      rw [h2] at h
      exact Except.noConfusion h
    | some wid =>
      rw [h2] at h
      dsimp only at h
      cases Except.ok.inj h
      exact inv_commit_risk _ _ r c _ (inv_get_or_create sys wid tid hInv)

/-- The dispatcher preserves the invariant on every committed request. -/
theorem inv_dispatch (ev : Option String) (p : Payload) (c : Option String)
    (r : RiskResult) (sys : Sys) (res : Sys × DispatchResult) (hInv : Inv sys)
    (h : dispatch_event ev p c r sys = .ok res) : Inv res.1 := by
  unfold dispatch_event at h
  split at h
  · cases hh : handle_selfie_uploaded p sys with
    | error e =>
      rw [hh] at h
      exact Except.noConfusion h
    | ok s2 =>
      rw [hh] at h
      dsimp only [Except.map] at h
      cases Except.ok.inj h
      exact inv_selfie p sys s2 hInv hh
  · cases hh : handle_id_uploaded p sys with
    | error e =>
      rw [hh] at h
      exact Except.noConfusion h
    | ok s2 =>
      rw [hh] at h
      dsimp only [Except.map] at h
      cases Except.ok.inj h
      exact inv_id_uploaded p sys s2 hInv hh
  · cases hh : handle_match_completed p sys with
    | error e =>
      rw [hh] at h
      exact Except.noConfusion h
    | ok s2 =>
      rw [hh] at h
      dsimp only [Except.map] at h
      cases Except.ok.inj h
      exact inv_match p sys s2 hInv hh
  · cases hh : handle_risk_evaluation p c r sys with
    | error e =>
      rw [hh] at h
      exact Except.noConfusion h
    | ok s2 =>
      rw [hh] at h
      dsimp only [Except.map] at h
      cases Except.ok.inj h
      exact inv_risk p c r sys s2 hInv hh
  · cases hh : handle_override_applied p c sys with
    | error e =>
      rw [hh] at h
      exact Except.noConfusion h
    | ok s2 =>
      obtain ⟨e0, he0⟩ := handle_override_applied_always_errors p c sys
      rw [he0] at hh
      exact Except.noConfusion hh
  · cases Except.ok.inj h
    exact hInv

/-- Every request preserves the invariant (aborted transactions leave the
store untouched). -/
theorem inv_step (sys : Sys) (rq : Request) (hInv : Inv sys) :
    Inv (stepRequest sys rq) := by
  cases rq with
  | manualDecision wid d reason =>
    rw [manual_request_noop]
    exact hInv
  | event e =>
    unfold stepRequest
    dsimp only
    cases he : dispatch_event e.event e.payload e.correlation_id e.risk_result sys with
    | error _ => exact hInv
    | ok res => exact inv_dispatch _ _ _ _ sys res hInv he

/-- The invariant holds along every request sequence. -/
theorem inv_run (rs : List Request) (sys : Sys) (hInv : Inv sys) :
    Inv (runRequests sys rs) := by
  induction rs generalizing sys with
  | nil => exact hInv
  | cons rq rest ih => exact ih (stepRequest sys rq) (inv_step sys rq hInv)

/-- C4: after any sequence of requests against the empty store — inbound
events through the dispatcher (selfie / id / match / risk / override /
unknown types) and manual-decision posts — every workflow row's mutable
`decision` field equals the outcome of that workflow's latest (by
`created_at`; the ledger is indexed by the insertion clock) `decision.finalised`
event, both being null for a workflow with no decision yet.  No reachable
operation breaks the coherence: the risk handler re-emits the cached
decision atomically, and the two routes that would desynchronise the cache
(the override handler and the manual-decision route) always raise before
writing. -/
theorem C4_cache_coherence :
    ∀ rs : List Request,
      Coherent (runRequests Sys.init rs) ∧
      EventsIndexed (runRequests Sys.init rs) := by
  intro rs
  have h := inv_run rs Sys.init inv_init
  exact ⟨h.2.2.1, h.2.2.2⟩

end TM